import Mathlib

/-
Shallow embedding of the recruiting_analyst status-derivation core:
dataclasses.py (domain model and status derivation), the hydration scans of
client/greenhouse.py, the cache serialization round trip of job_manager.py,
and the interview-timing field group of application_csv_writer.py.
Timestamps are modelled as integers (a totally ordered instant type); ISO
parsing and string rendering are abstracted away, as is the HTTP transport.
-/

namespace Recruiting

/-- Instants in time: the datetime values of the code, totally ordered.
Parsing of ISO timestamp strings is abstracted; hydration treats an
unparseable timestamp as a fatal error before such a value exists. -/
abbrev Datetime := Int

/-- Contiguous-sublist test on character lists. -/
def charsContain (needle : List Char) : List Char → Bool
  | [] => needle.isEmpty
  | c :: tail => needle.isPrefixOf (c :: tail) || charsContain needle tail

/-- Python substring containment, the expression sub in s. -/
def strContains (s sub : String) : Bool :=
  charsContain sub.toList s.toList

inductive RoleFunction
  | Engineer
  | Other
deriving DecidableEq

inductive Seniority
  | SWE1
  | SWE2
  | Senior
  | Staff
  | Unknown
deriving DecidableEq

structure Role where
  function : RoleFunction
  seniority : Seniority
deriving DecidableEq

structure Department where
  id : String
  name : String
deriving DecidableEq

structure Location where
  id : String
  name : String
deriving DecidableEq

/-- Template-level interview of a pipeline stage (dataclasses.py Interview). -/
structure Interview where
  id : String
  name : String
  schedulable : Bool
deriving DecidableEq

structure JobStage where
  id : String
  name : String
  interviews : List Interview
deriving DecidableEq

/-- JobStage.is_schedulable: any template interview is schedulable. -/
def JobStage.is_schedulable (s : JobStage) : Bool :=
  s.interviews.any (fun i => i.schedulable)

/-- JobStage.is_take_home: not schedulable and the name contains "Take Home". -/
def JobStage.is_take_home (s : JobStage) : Bool :=
  !s.is_schedulable && strContains s.name "Take Home"

structure User where
  id : String
  first_name : String
  last_name : String
deriving DecidableEq

/-- Job (dataclasses.py). The Python field stages may be None before the
stage-fill step; the claims below only concern jobs whose stages are filled,
and the serializer maps a missing stages value to the empty list, so stages
is modelled as a plain list. -/
structure Job where
  id : String
  name : String
  location : Location
  created_at : Datetime
  opened_at : Option Datetime
  hiring_managers : List User
  recruiters : List User
  coordinators : List User
  sourcers : List User
  departments : List Department
  role : Role
  stages : List JobStage
deriving DecidableEq

def Job.has_take_home_stage (j : Job) : Bool :=
  j.stages.any (fun s => s.is_take_home)

def Job.is_ai_eligible (j : Job) : Bool :=
  j.role.function = RoleFunction.Engineer

/-- Job.is_ai_enabled (dataclasses.py lines 92-116): a non-Engineer role is
never enabled; an SWE1/SWE2 role is enabled when some stage name contains
"Take Home Test"; a Senior role is enabled when some stage has an interview
whose name contains "DevAI Technical Screen"; otherwise false. The two
seniority checks run in sequence in the source and their guards are mutually
exclusive, so the sequential fall-through equals this disjunction. -/
def Job.is_ai_enabled (j : Job) : Bool :=
  if j.role.function ≠ RoleFunction.Engineer then
    false
  else
    ((j.role.seniority = Seniority.SWE1 ∨ j.role.seniority = Seniority.SWE2) &&
      j.stages.any (fun st => strContains st.name "Take Home Test")) ||
    (j.role.seniority = Seniority.Senior &&
      j.stages.any (fun st => st.interviews.any
        (fun i => strContains i.name "DevAI Technical Screen")))

inductive TakeHomeStatus
  | PENDING_SUBMISSION
  | PENDING_GRADING
  | PENDING_DECISION
deriving DecidableEq

inductive StageStatus
  | PENDING_AVAILABILITY_REQUEST
  | WAITING_FOR_AVAILABILITY
  | PENDING_SCHEDULING
  | INTERVIEW_SCHEDULED
  | PENDING_SCORECARD
  | PENDING_DECISION
deriving DecidableEq

inductive InterviewStatus
  | SCHEDULED
  | AWAITING_FEEDBACK
  | COMPLETE
deriving DecidableEq

inductive ScorecardDecision
  | DEFINITELY_NOT
  | NO
  | NO_DECISION
  | YES
  | STRONG_YES
deriving DecidableEq

/-- Scorecard (dataclasses.py); the Python field by is named by_user here
because by is a reserved word in Lean. -/
structure Scorecard where
  id : String
  submitted_at : Datetime
  by_user : User
  decision : ScorecardDecision
deriving DecidableEq

/-- ScheduledInterview (dataclasses.py). created_at is nullable: hydration
leaves it unset when neither scheduling-confirmation pattern matches
(greenhouse.py lines 463-479, 488). -/
structure ScheduledInterview where
  id : String
  interview : Interview
  created_at : Option Datetime
  date : Datetime
  status : InterviewStatus
  interviewers : List User
  scorecards : List Scorecard
deriving DecidableEq

structure TakeHomeGrading where
  id : String
  submitted_at : Datetime
  by_user : User
deriving DecidableEq

structure ApplicationBlocker where
  status : StageStatus
  relevant_time_name : String
  relevant_time : Datetime
deriving DecidableEq

/-- Application (dataclasses.py). moved_to_stage_at is annotated datetime in
the dataclass but hydration assigns None when no stage-entry activity
matches (greenhouse.py lines 306, 329), so it is optional here. -/
structure Application where
  id : String
  job : Job
  current_stage : JobStage
  moved_to_stage_at : Option Datetime
  candidate_name : Option String
  candidate_id : String
  availability_requested_at : Option Datetime
  availability_received_at : Option Datetime
  take_home_submitted_at : Option Datetime
  take_home_grading : Option TakeHomeGrading
  interviews : List ScheduledInterview
deriving DecidableEq

def Application.is_take_home_stage (a : Application) : Bool :=
  a.current_stage.is_take_home

def Application.is_relevant_stage (a : Application) : Bool :=
  a.current_stage.is_schedulable || a.is_take_home_stage

/-- Application.get_take_home_status (dataclasses.py lines 203-209). A
datetime or a dataclass instance is always truthy in Python, so the truth
tests are exactly isSome tests. -/
def Application.get_take_home_status (a : Application) : TakeHomeStatus :=
  if a.take_home_grading.isSome then
    TakeHomeStatus.PENDING_DECISION
  else if a.take_home_submitted_at.isSome then
    TakeHomeStatus.PENDING_GRADING
  else
    TakeHomeStatus.PENDING_SUBMISSION

/-- Application.get_stage_status (dataclasses.py lines 211-225). -/
def Application.get_stage_status (a : Application) : StageStatus :=
  if a.interviews ≠ [] then
    if a.interviews.all (fun i => i.status = InterviewStatus.COMPLETE) then
      StageStatus.PENDING_DECISION
    else if a.interviews.any (fun i => i.status = InterviewStatus.AWAITING_FEEDBACK) then
      StageStatus.PENDING_SCORECARD
    else
      StageStatus.INTERVIEW_SCHEDULED
  else
    if a.availability_received_at.isSome then
      StageStatus.PENDING_SCHEDULING
    else if a.availability_requested_at.isSome then
      StageStatus.WAITING_FOR_AVAILABILITY
    else
      StageStatus.PENDING_AVAILABILITY_REQUEST

/-- The Python comparison a < b on the optional created_at keys: comparing
None with anything (including None) raises TypeError, modelled as error. -/
def pyLtOpt : Option Datetime → Option Datetime → Except Unit Bool
  | some a, some b => Except.ok (decide (a < b))
  | _, _ => Except.error ()

/-- Loop of the Python builtin min: keep the current best, and for each next
element test key(next) < key(best). -/
def pyMinGo : ScheduledInterview → List ScheduledInterview → Except Unit ScheduledInterview
  | best, [] => Except.ok best
  | best, y :: ys =>
    match pyLtOpt y.created_at best.created_at with
    | Except.error e => Except.error e
    | Except.ok true => pyMinGo y ys
    | Except.ok false => pyMinGo best ys

/-- min(interviews, key=lambda x: x.created_at): the first element seeds the
best; an empty list raises ValueError and any comparison that touches a
None created_at raises TypeError, both modelled as error. -/
def pyMinByCreatedAt : List ScheduledInterview → Except Unit ScheduledInterview
  | [] => Except.error ()
  | x :: xs => pyMinGo x xs

/-- The final guard of get_application_blocker: a blocker is built only when
relevant_time is truthy (a datetime is always truthy, None is falsy). -/
def mkApplicationBlocker (st : StageStatus) (name : String) :
    Option Datetime → Option ApplicationBlocker
  | none => none
  | some t => some ⟨st, name, t⟩

/-- Application.get_application_blocker (dataclasses.py lines 227-248);
Reporter.get_application_blocker (reporter.py lines 41-62) is the same
algorithm verbatim. The PENDING_SCORECARD / PENDING_DECISION branch takes
min over the raw interview list with key created_at, with no null filter. -/
def Application.get_application_blocker (a : Application) :
    Except Unit (Option ApplicationBlocker) :=
  let st := a.get_stage_status
  if st = StageStatus.PENDING_AVAILABILITY_REQUEST then
    Except.ok (mkApplicationBlocker st "moved_to_stage_at" a.moved_to_stage_at)
  else if st = StageStatus.WAITING_FOR_AVAILABILITY then
    Except.ok (mkApplicationBlocker st "availability_requested_at" a.availability_requested_at)
  else if st = StageStatus.PENDING_SCHEDULING then
    Except.ok (mkApplicationBlocker st "availability_received_at" a.availability_received_at)
  else if st = StageStatus.PENDING_SCORECARD ∨ st = StageStatus.PENDING_DECISION then
    match pyMinByCreatedAt a.interviews with
    | Except.error e => Except.error e
    | Except.ok earliest =>
      Except.ok (mkApplicationBlocker st "interview_date" (some earliest.date))
  else
    Except.ok none

/-- Raw scorecard record as consumed by hydration (greenhouse.py lines
353-378): only the fields the take-home scan reads. interview_step_id is
str(scorecard["interview_step"]["id"]). -/
structure RawScorecard where
  id : String
  interview_step_id : String
  submitted_at : Datetime
  submitted_by : User
deriving DecidableEq

/-- TakeHomeGrading built from a matching scorecard record
(greenhouse.py lines 365-377). -/
def gradingOfScorecard (sc : RawScorecard) : TakeHomeGrading :=
  ⟨sc.id, sc.submitted_at, sc.submitted_by⟩

/-- Take-home grading scan of _hydrate_application (greenhouse.py lines
353-378): iterate over all scorecard records; when the record has an
interview_step id equal to some interview id of the current take-home
stage, assign take_home_grading from that record. The break in the source
only exits the inner loop over stage interviews, so the outer loop
continues and each later matching record overwrites the variable. -/
def grading_step (stage_interviews : List Interview)
    (acc : Option TakeHomeGrading) (sc : RawScorecard) : Option TakeHomeGrading :=
  if stage_interviews.any (fun i => i.id = sc.interview_step_id) then
    some (gradingOfScorecard sc)
  else acc

def scan_take_home_grading (stage_interviews : List Interview)
    (scorecards : List RawScorecard) : Option TakeHomeGrading :=
  scorecards.foldl (grading_step stage_interviews) none

/-- Activity-feed entry: created_at (parsed) and the free-text body
(greenhouse.py lines 324-331). -/
structure Activity where
  created_at : Datetime
  body : String
deriving DecidableEq

/-- Guard of the availability-request scan (greenhouse.py line 504). -/
def matches_availability_requested (stage_name body : String) : Bool :=
  strContains body "manually updated" &&
  strContains body "availability from Not requested to Requested for" &&
  strContains body ("(" ++ stage_name ++ ")")

/-- Guard of the availability-received scan (greenhouse.py line 508). -/
def matches_availability_received (stage_name body : String) : Bool :=
  strContains body "submitted their availability for" &&
  strContains body ("(" ++ stage_name ++ ")")

/-- Availability scan of _hydrate_application (greenhouse.py lines 497-509):
one pass over all activities with no break; each matching activity
overwrites the corresponding variable, starting from None. -/
def availability_step (stage_name : String)
    (acc : Option Datetime × Option Datetime) (act : Activity) :
    Option Datetime × Option Datetime :=
  (if matches_availability_requested stage_name act.body then some act.created_at
   else acc.1,
   if matches_availability_received stage_name act.body then some act.created_at
   else acc.2)

def scan_availability (stage_name : String) (activities : List Activity) :
    Option Datetime × Option Datetime :=
  activities.foldl (availability_step stage_name) (none, none)

/-- Cache form of a template interview (job_manager.py lines 74-77): only
name and schedulable are written; the id is not serialized. -/
structure CacheInterview where
  name : String
  schedulable : Bool
deriving DecidableEq

/-- Cache form of a stage (job_manager.py lines 71-80): only the name and
the interview list are written; the id is not serialized. -/
structure CacheStage where
  name : String
  interviews : List CacheInterview
deriving DecidableEq

/-- Cache form of a job (job_manager.py lines 38-81). Datetimes are written
with isoformat and read back with fromisoformat; that round trip is the
identity and is abstracted here. The role is written as the two enum value
strings. -/
structure CacheJob where
  id : String
  name : String
  location : Location
  created_at : Datetime
  opened_at : Option Datetime
  hiring_managers : List User
  recruiters : List User
  coordinators : List User
  sourcers : List User
  departments : List Department
  role_function : String
  role_seniority : String
  stages : List CacheStage
deriving DecidableEq

/-- The .value string of a RoleFunction member. -/
def RoleFunction.value : RoleFunction → String
  | RoleFunction.Engineer => "Engineer"
  | RoleFunction.Other => "Other"

/-- The .value string of a Seniority member. -/
def Seniority.value : Seniority → String
  | Seniority.SWE1 => "SWE1"
  | Seniority.SWE2 => "SWE2"
  | Seniority.Senior => "Senior"
  | Seniority.Staff => "Staff"
  | Seniority.Unknown => "Unknown"

/-- RoleFunction(value): enum lookup by value, raising on an unknown
string, modelled as error. -/
def RoleFunction.ofValue (s : String) : Except Unit RoleFunction :=
  if s = "Engineer" then Except.ok RoleFunction.Engineer
  else if s = "Other" then Except.ok RoleFunction.Other
  else Except.error ()

/-- Seniority(value): enum lookup by value, raising on an unknown string. -/
def Seniority.ofValue (s : String) : Except Unit Seniority :=
  if s = "SWE1" then Except.ok Seniority.SWE1
  else if s = "SWE2" then Except.ok Seniority.SWE2
  else if s = "Senior" then Except.ok Seniority.Senior
  else if s = "Staff" then Except.ok Seniority.Staff
  else if s = "Unknown" then Except.ok Seniority.Unknown
  else Except.error ()

/-- Serialization of one job to the cache format (JobManager.refresh_cache,
job_manager.py lines 38-81). A None stages value is written as the empty
list, which coincides with the empty list here. -/
def serialize_job (j : Job) : CacheJob where
  id := j.id
  name := j.name
  location := j.location
  created_at := j.created_at
  opened_at := j.opened_at
  hiring_managers := j.hiring_managers
  recruiters := j.recruiters
  coordinators := j.coordinators
  sourcers := j.sourcers
  departments := j.departments
  role_function := j.role.function.value
  role_seniority := j.role.seniority.value
  stages := j.stages.map (fun st =>
    ⟨st.name, st.interviews.map (fun i => ⟨i.name, i.schedulable⟩)⟩)

/-- Reconstruction of one template interview in JobManager._load_cache
(job_manager.py lines 151-154): the source calls
Interview(name=..., schedulable=...) but the Interview dataclass has a
required id field with no default, so the call raises TypeError for every
cache entry; the per-job except block then skips the whole job. -/
def load_cache_interview (_d : CacheInterview) : Except Unit Interview :=
  Except.error ()

/-- Reconstruction of one stage in JobManager._load_cache (job_manager.py
lines 147-161): the interview loop runs first; if it somehow produced a
list, the call JobStage(name=..., interviews=...) would itself raise
TypeError because the JobStage dataclass also requires an id. -/
def load_cache_stage (d : CacheStage) : Except Unit JobStage :=
  match d.interviews.mapM load_cache_interview with
  | Except.error e => Except.error e
  | Except.ok _ => Except.error ()

/-- Reconstruction of one job in JobManager._load_cache (job_manager.py
lines 109-181): location, users and departments are rebuilt field by field
(total), the role enums are looked up by value, then the stages are rebuilt;
any exception is caught per job and the job is skipped, modelled as the
error case of the result. -/
def load_cache_job (d : CacheJob) : Except Unit Job := do
  let fn ← RoleFunction.ofValue d.role_function
  let sen ← Seniority.ofValue d.role_seniority
  let stages ← d.stages.mapM load_cache_stage
  Except.ok
    { id := d.id
      name := d.name
      location := d.location
      created_at := d.created_at
      opened_at := d.opened_at
      hiring_managers := d.hiring_managers
      recruiters := d.recruiters
      coordinators := d.coordinators
      sourcers := d.sourcers
      departments := d.departments
      role := ⟨fn, sen⟩
      stages := stages }

/-- Raw application record: the fields of app_data that
get_applications_for_job and get_application read (id, candidate_id,
prospect flag, current_stage id, and the ids of the jobs array). -/
structure RawApplication where
  id : String
  candidate_id : String
  prospect : Bool
  current_stage_id : String
  jobs : List String
deriving DecidableEq

/-- Batch hydration (GreenhouseClient.get_applications_for_job,
greenhouse.py lines 576-621), parameterized by the hydration outcome of
each record (the HTTP-backed _hydrate_application). Prospect records and
records whose current stage is not found in the job template are skipped
silently; a hydration exception is caught, a warning line is emitted, and
the loop continues. Returns the hydrated applications and the warnings. -/
def batch_step
    (hydrate : Job → JobStage → RawApplication → Except String Application)
    (job : Job) (acc : List Application × List String) (app_data : RawApplication) :
    List Application × List String :=
  if app_data.prospect then acc
  else
    match job.stages.find? (fun st => st.id = app_data.current_stage_id) with
    | none => acc
    | some st =>
      match hydrate job st app_data with
      | Except.ok app => (acc.1 ++ [app], acc.2)
      | Except.error e =>
        (acc.1,
         acc.2 ++ ["Warning: Failed to hydrate application " ++ app_data.id ++ ": " ++ e])

def get_applications_for_job
    (hydrate : Job → JobStage → RawApplication → Except String Application)
    (job : Job) (apps_data : List RawApplication) :
    List Application × List String :=
  apps_data.foldl (batch_step hydrate job) ([], [])

/-- Successful-hydration projection of one raw record, the per-record
behavior of the batch loop (used to state what the batch returns). -/
def batch_hydration_result
    (hydrate : Job → JobStage → RawApplication → Except String Application)
    (job : Job) (app_data : RawApplication) : Option Application :=
  if app_data.prospect then none
  else
    match job.stages.find? (fun st => st.id = app_data.current_stage_id) with
    | none => none
    | some st =>
      match hydrate job st app_data with
      | Except.ok app => some app
      | Except.error _ => none

/-- Warning projection of one raw record in the batch loop. -/
def batch_hydration_warning
    (hydrate : Job → JobStage → RawApplication → Except String Application)
    (job : Job) (app_data : RawApplication) : Option String :=
  if app_data.prospect then none
  else
    match job.stages.find? (fun st => st.id = app_data.current_stage_id) with
    | none => none
    | some st =>
      match hydrate job st app_data with
      | Except.ok _ => none
      | Except.error e =>
        some ("Warning: Failed to hydrate application " ++ app_data.id ++ ": " ++ e)

/-- Single-application lookup (GreenhouseClient.get_application,
greenhouse.py lines 525-574), parameterized by the job-manager lookup and
the hydration step. A missing jobs entry, a job id unknown to the job
manager, or a current-stage id not present in the job template each raise
ValueError with a descriptive message, which propagates to the caller. -/
def get_application
    (lookup : String → Option Job)
    (hydrate : Job → JobStage → RawApplication → Except String Application)
    (app_data : RawApplication) : Except String Application :=
  match app_data.jobs.head? with
  | none => Except.error ("No job found in application " ++ app_data.id)
  | some job_id =>
    match lookup job_id with
    | none =>
      Except.error ("Job " ++ job_id ++ " not found in job manager for application " ++ app_data.id)
    | some job =>
      match job.stages.find? (fun st => st.id = app_data.current_stage_id) with
      | none =>
        Except.error ("Current stage " ++ app_data.current_stage_id ++ " not found in job " ++ job_id)
      | some st => hydrate job st app_data

/-- InterviewTimes.get_values (application_csv_writer.py lines 69-87):
the four columns availability_requested_at, availability_received_at,
interview_scheduled_at, interview_date. The string rendering via strftime
is abstracted; an absent value is none. The earliest-interview selection
first filters out interviews with a falsy (None) created_at, then takes the
Python min by created_at over the survivors. -/
def InterviewTimes_get_values (a : Application) :
    Except Unit (Option Datetime × Option Datetime × Option Datetime × Option Datetime) :=
  let availability_requested_at := a.availability_requested_at
  let availability_received_at := a.availability_received_at
  if a.interviews ≠ [] then
    let valid_interviews := a.interviews.filter (fun i => i.created_at.isSome)
    if valid_interviews ≠ [] then
      match pyMinByCreatedAt valid_interviews with
      | Except.error e => Except.error e
      | Except.ok earliest =>
        let interview_scheduled_at :=
          if earliest.created_at.isSome then earliest.created_at else none
        let interview_date := some earliest.date
        Except.ok (availability_requested_at, availability_received_at,
                   interview_scheduled_at, interview_date)
    else
      Except.ok (availability_requested_at, availability_received_at, none, none)
  else
    Except.ok (availability_requested_at, availability_received_at, none, none)

/-- Concrete sample data used to evaluate the definitions on closed inputs. -/
def sampleUser : User :=
  ⟨"U1", "Ada", "Lovelace"⟩

def sampleTemplateInterview : Interview :=
  ⟨"I1", "Technical Interview", true⟩

def sampleStage : JobStage :=
  ⟨"ST1", "Onsite", [sampleTemplateInterview]⟩

def sampleLocation : Location :=
  ⟨"L1", "San Francisco"⟩

def sampleJob : Job :=
  ⟨"J1", "Software Engineer 1", sampleLocation, 0, none, [], [], [], [], [],
   ⟨RoleFunction.Engineer, Seniority.SWE1⟩, [sampleStage]⟩

/-- A scheduled interview on the sample template with the given id,
created_at, date and status. -/
def mkScheduled (id : String) (c : Option Datetime) (d : Datetime)
    (st : InterviewStatus) : ScheduledInterview :=
  ⟨id, sampleTemplateInterview, c, d, st, [], []⟩

/-- Application in PENDING_SCORECARD whose interview list holds created_at
values T2 = 2, None, T1 = 1: the scenario of the blocker tie-break rule. -/
def crashAppThree : Application :=
  ⟨"A2", sampleJob, sampleStage, some 0, some "Cand Two", "C2", none, none,
   none, none,
   [mkScheduled "SI1" (some 2) 20 InterviewStatus.AWAITING_FEEDBACK,
    mkScheduled "SI2" none 30 InterviewStatus.SCHEDULED,
    mkScheduled "SI3" (some 1) 10 InterviewStatus.SCHEDULED]⟩

/-- Application in PENDING_SCORECARD with interviews created_at = some 2 and
None: the minimal input on which the blocker computation raises. -/
def crashAppTwo : Application :=
  ⟨"A3", sampleJob, sampleStage, some 0, some "Cand Three", "C3", none, none,
   none, none,
   [mkScheduled "SI4" (some 2) 20 InterviewStatus.AWAITING_FEEDBACK,
    mkScheduled "SI5" none 30 InterviewStatus.SCHEDULED]⟩

/-- Application with interviews [COMPLETE, AWAITING_FEEDBACK] and both
availability fields set: the mixed-status priority scenario. -/
def mixedStatusApp : Application :=
  ⟨"A1", sampleJob, sampleStage, some 0, some "Cand One", "C1", some 5, some 6,
   none, none,
   [mkScheduled "SI6" (some 1) 10 InterviewStatus.COMPLETE,
    mkScheduled "SI7" (some 2) 20 InterviewStatus.AWAITING_FEEDBACK]⟩

/-- Engineer SWE1 job with a stage named Take Home Test - Advanced. -/
def swe1TakeHomeJob : Job :=
  ⟨"J5", "Software Engineer 1", sampleLocation, 0, none, [], [], [], [], [],
   ⟨RoleFunction.Engineer, Seniority.SWE1⟩,
   [⟨"ST5", "Take Home Test - Advanced", [⟨"I5", "Grading", false⟩]⟩]⟩

/-- Engineer Staff job with a Take Home Test stage. -/
def staffTakeHomeJob : Job :=
  ⟨"J6", "Staff Software Engineer", sampleLocation, 0, none, [], [], [], [], [],
   ⟨RoleFunction.Engineer, Seniority.Staff⟩,
   [⟨"ST6", "Take Home Test", [⟨"I6", "Grading", false⟩]⟩]⟩

/-- Template interviews of a take-home stage. -/
def takeHomeStageInterviews : List Interview :=
  [⟨"TH1", "Take Home Grading", false⟩]

/-- First matching scorecard record in API order. -/
def scorecardRecOne : RawScorecard :=
  ⟨"S1", "TH1", 10, sampleUser⟩

/-- Second matching scorecard record in API order. -/
def scorecardRecTwo : RawScorecard :=
  ⟨"S2", "TH1", 20, sampleUser⟩

/-- A hydration outcome stub: fails on the record with id bad. -/
def hydrateStub (job : Job) (st : JobStage) (d : RawApplication) :
    Except String Application :=
  if d.id = "bad" then Except.error "boom"
  else
    Except.ok
      ⟨d.id, job, st, none, none, d.candidate_id, none, none, none, none, []⟩

def rawGoodApp : RawApplication :=
  ⟨"good", "cg", false, "ST1", ["J1"]⟩

def rawBadApp : RawApplication :=
  ⟨"bad", "cb", false, "ST1", ["J1"]⟩

/-- Raw record whose jobs array names a job the job manager does not know. -/
def rawOtherJobApp : RawApplication :=
  ⟨"A9", "c9", false, "ST1", ["JX"]⟩

/-- Job-manager lookup stub that only knows sampleJob. -/
def lookupStub (jid : String) : Option Job :=
  if jid = "J1" then some sampleJob else none

/-- Application whose only interview is missing created_at. -/
def noneCreatedApp : Application :=
  ⟨"A10", sampleJob, sampleStage, none, none, "C10", some 5, none, none, none,
   [mkScheduled "SI8" none 40 InterviewStatus.SCHEDULED]⟩

theorem foldl_overwrite {α β : Type} (p : α → Bool) (f : α → β) :
    ∀ (l : List α) (init : Option β),
      l.foldl (fun acc x => if p x then some (f x) else acc) init =
        ((l.reverse.find? p).map f).or init := by
  intro l
  induction l with
  | nil => intro init; simp
  | cons x tl ih =>
    intro init
    simp only [List.foldl_cons, ih, List.reverse_cons, List.find?_append]
    cases htl : tl.reverse.find? p with
    | some w => simp [Option.or]
    | none =>
      cases hp : p x <;> simp [List.find?, hp, Option.or]

theorem foldl_pair {α β γ : Type} (f : β → α → β) (g : γ → α → γ) :
    ∀ (l : List α) (i : β × γ),
      l.foldl (fun acc x => (f acc.1 x, g acc.2 x)) i = (l.foldl f i.1, l.foldl g i.2) := by
  intro l
  induction l with
  | nil => intro i; rfl
  | cons x tl ih => intro i; simp only [List.foldl_cons]; exact ih (f i.1 x, g i.2 x)

/-- C6 counterexample: with a take-home stage whose interview TH1 is matched
by two scorecard records S1 then S2 (in API order), the hydration scan
attaches the grading built from S2, not from the first match S1: the break
in the source only leaves the inner loop, so the later record overwrites. -/
theorem take_home_grading_not_first_match :
    scan_take_home_grading takeHomeStageInterviews [scorecardRecOne, scorecardRecTwo] =
        some (gradingOfScorecard scorecardRecTwo) ∧
      gradingOfScorecard scorecardRecTwo ≠ gradingOfScorecard scorecardRecOne := by
  exact ⟨rfl, by decide⟩

/-- C6 (amended): during take-home hydration at most one TakeHomeGrading is
attached, and when several scorecard records have an interview_step id
matching an interview id of the current take-home stage, the grading is
built from the last such record in the original API ordering: the scan
equals the first match over the reversed record list. -/
theorem take_home_grading_last_match_wins :
    ∀ (ints : List Interview) (scs : List RawScorecard),
      scan_take_home_grading ints scs =
        (scs.reverse.find? (fun sc => ints.any (fun i => i.id = sc.interview_step_id))).map
          gradingOfScorecard := by
  intro ints scs
  have h := foldl_overwrite (fun sc => ints.any (fun i => i.id = sc.interview_step_id))
    gradingOfScorecard scs none
  simp only [Option.or_none] at h
  exact h

/-- C7: the availability scan of hydration does not break early, so the last
activity matching the availability-requested pattern determines
availability_requested_at and the last activity matching the
availability-received pattern determines availability_received_at: both
components equal the first match over the reversed activity list. -/
theorem availability_scan_last_match_wins :
    ∀ (stage_name : String) (activities : List Activity),
      scan_availability stage_name activities =
        ((activities.reverse.find?
            (fun act => matches_availability_requested stage_name act.body)).map
          (fun act => act.created_at),
         (activities.reverse.find?
            (fun act => matches_availability_received stage_name act.body)).map
          (fun act => act.created_at)) := by
  intro stage_name activities
  have hpair := foldl_pair
    (fun acc act =>
      if matches_availability_requested stage_name act.body then some act.created_at else acc)
    (fun acc act =>
      if matches_availability_received stage_name act.body then some act.created_at else acc)
    activities (none, none)
  have h1 := foldl_overwrite
    (fun act => matches_availability_requested stage_name act.body)
    (fun act => act.created_at) activities none
  have h2 := foldl_overwrite
    (fun act => matches_availability_received stage_name act.body)
    (fun act => act.created_at) activities none
  have hstep : scan_availability stage_name activities =
      activities.foldl
        (fun acc act =>
          ((fun acc act =>
            if matches_availability_requested stage_name act.body then some act.created_at
            else acc) acc.1 act,
           (fun acc act =>
            if matches_availability_received stage_name act.body then some act.created_at
            else acc) acc.2 act)) (none, none) := rfl
  rw [hstep, hpair, h1, h2]
  simp

/-- C1: get_stage_status is total and follows the strict priority ladder,
first match winning: non-empty all-COMPLETE interviews give
PENDING_DECISION; else a non-empty list with some AWAITING_FEEDBACK gives
PENDING_SCORECARD; else a non-empty list gives INTERVIEW_SCHEDULED; with no
interviews, a received availability gives PENDING_SCHEDULING, else a
requested availability gives WAITING_FOR_AVAILABILITY, else
PENDING_AVAILABILITY_REQUEST; and with a non-empty interview list the
result is independent of both availability fields. -/
theorem stage_status_priority_ladder (a : Application) :
    (a.interviews ≠ [] →
      a.interviews.all (fun i => i.status = InterviewStatus.COMPLETE) = true →
      a.get_stage_status = StageStatus.PENDING_DECISION) ∧
    (a.interviews ≠ [] →
      a.interviews.all (fun i => i.status = InterviewStatus.COMPLETE) = false →
      a.interviews.any (fun i => i.status = InterviewStatus.AWAITING_FEEDBACK) = true →
      a.get_stage_status = StageStatus.PENDING_SCORECARD) ∧
    (a.interviews ≠ [] →
      a.interviews.all (fun i => i.status = InterviewStatus.COMPLETE) = false →
      a.interviews.any (fun i => i.status = InterviewStatus.AWAITING_FEEDBACK) = false →
      a.get_stage_status = StageStatus.INTERVIEW_SCHEDULED) ∧
    (a.interviews = [] → a.availability_received_at.isSome = true →
      a.get_stage_status = StageStatus.PENDING_SCHEDULING) ∧
    (a.interviews = [] → a.availability_received_at = none →
      a.availability_requested_at.isSome = true →
      a.get_stage_status = StageStatus.WAITING_FOR_AVAILABILITY) ∧
    (a.interviews = [] → a.availability_received_at = none →
      a.availability_requested_at = none →
      a.get_stage_status = StageStatus.PENDING_AVAILABILITY_REQUEST) ∧
    (a.interviews ≠ [] → ∀ (x y : Option Datetime),
      ({ a with availability_requested_at := x,
                availability_received_at := y } : Application).get_stage_status =
        a.get_stage_status) := by
  refine ⟨?_, ?_, ?_, ?_, ?_, ?_, ?_⟩
  · intro hne hall
    simp [Application.get_stage_status, hne, hall]
  · intro hne hall hany
    simp [Application.get_stage_status, hne, hall, hany]
  · intro hne hall hany
    simp [Application.get_stage_status, hne, hall, hany]
  · intro hemp hrecv
    simp [Application.get_stage_status, hemp, hrecv]
  · intro hemp hrecv hreq
    simp [Application.get_stage_status, hemp, hrecv, hreq]
  · intro hemp hrecv hreq
    simp [Application.get_stage_status, hemp, hrecv, hreq]
  · intro hne x y
    simp [Application.get_stage_status, hne]

/-- C1 witness: an application with interviews [COMPLETE, AWAITING_FEEDBACK]
and both availability fields set is PENDING_SCORECARD. -/
theorem stage_status_priority_ladder_witness :
    mixedStatusApp.get_stage_status = StageStatus.PENDING_SCORECARD :=
  (stage_status_priority_ladder mixedStatusApp).2.1 (by decide) (by decide) (by decide)

/-- C4: get_take_home_status is total over the three states and the three
cases are mutually exclusive: the result is PENDING_DECISION exactly when a
grading is present, PENDING_GRADING exactly when no grading is present but
a submission time is, and PENDING_SUBMISSION exactly when neither is. -/
theorem take_home_status_three_states (a : Application) :
    (a.get_take_home_status = TakeHomeStatus.PENDING_DECISION ↔
      a.take_home_grading.isSome = true) ∧
    (a.get_take_home_status = TakeHomeStatus.PENDING_GRADING ↔
      (a.take_home_grading = none ∧ a.take_home_submitted_at.isSome = true)) ∧
    (a.get_take_home_status = TakeHomeStatus.PENDING_SUBMISSION ↔
      (a.take_home_grading = none ∧ a.take_home_submitted_at = none)) := by
  cases hg : a.take_home_grading with
  | some g => simp [Application.get_take_home_status, hg]
  | none =>
    cases hs : a.take_home_submitted_at with
    | some t => simp [Application.get_take_home_status, hg, hs]
    | none => simp [Application.get_take_home_status, hg, hs]

/-- C5: is_ai_enabled is false for a non-Engineer role; for an eligible
SWE1 or SWE2 role it is true exactly when some stage name contains the
substring Take Home Test; for an eligible Senior role it is true exactly
when some stage has an interview whose name contains the substring DevAI
Technical Screen; and a Staff or Unknown seniority always gives false. -/
theorem is_ai_enabled_characterization (j : Job) :
    (j.role.function ≠ RoleFunction.Engineer → j.is_ai_enabled = false) ∧
    (j.role.function = RoleFunction.Engineer →
      (j.role.seniority = Seniority.SWE1 ∨ j.role.seniority = Seniority.SWE2) →
      (j.is_ai_enabled = true ↔
        j.stages.any (fun st => strContains st.name "Take Home Test") = true)) ∧
    (j.role.function = RoleFunction.Engineer → j.role.seniority = Seniority.Senior →
      (j.is_ai_enabled = true ↔
        j.stages.any (fun st => st.interviews.any
          (fun i => strContains i.name "DevAI Technical Screen")) = true)) ∧
    ((j.role.seniority = Seniority.Staff ∨ j.role.seniority = Seniority.Unknown) →
      j.is_ai_enabled = false) := by
  refine ⟨?_, ?_, ?_, ?_⟩
  · intro hnf
    simp [Job.is_ai_enabled, hnf]
  · intro hf hs
    rcases hs with hs | hs <;> simp [Job.is_ai_enabled, hf, hs]
  · intro hf hs
    simp [Job.is_ai_enabled, hf, hs]
  · intro hs
    by_cases hf : j.role.function = RoleFunction.Engineer
    · rcases hs with hs | hs <;> simp [Job.is_ai_enabled, hf, hs]
    · simp [Job.is_ai_enabled, hf]

/-- C5 witness: an Engineer SWE1 job with a stage named Take Home Test -
Advanced is AI-enabled (substring match), and an Engineer Staff job with a
Take Home Test stage is not. -/
theorem is_ai_enabled_characterization_witness :
    swe1TakeHomeJob.is_ai_enabled = true ∧ staffTakeHomeJob.is_ai_enabled = false := by
  constructor
  · exact ((is_ai_enabled_characterization swe1TakeHomeJob).2.1 (by decide)
      (Or.inl (by decide))).mpr (by decide)
  · exact (is_ai_enabled_characterization staffTakeHomeJob).2.2.2 (Or.inl (by decide))

/-- C2: on an application in PENDING_SCORECARD whose interviews carry
created_at values T2 = 2, None, T1 = 1, get_application_blocker raises
(min compares a None key with a datetime, a TypeError), instead of
excluding the null entry and selecting the T1 interview; the filtered
candidate set, as used by the CSV field group, does select the T1
interview, whose date is 10. -/
theorem blocker_raises_on_null_created_at :
    crashAppThree.get_stage_status = StageStatus.PENDING_SCORECARD ∧
      crashAppThree.get_application_blocker = Except.error () ∧
      pyMinByCreatedAt (crashAppThree.interviews.filter (fun i => i.created_at.isSome)) =
        Except.ok (mkScheduled "SI3" (some 1) 10 InterviewStatus.SCHEDULED) ∧
      (mkScheduled "SI3" (some 1) 10 InterviewStatus.SCHEDULED).date = 10 :=
  ⟨rfl, rfl, rfl, rfl⟩

/-- C3: get_application_blocker is not total as the mapping table promises:
on an application in PENDING_SCORECARD with interviews whose created_at
values are some 2 and None, it raises instead of returning the blocker the
table prescribes. -/
theorem blocker_table_broken_by_null_created_at :
    crashAppTwo.get_stage_status = StageStatus.PENDING_SCORECARD ∧
      crashAppTwo.get_application_blocker = Except.error () :=
  ⟨rfl, rfl⟩

/-- C8: the cache round trip fails for every job with stages; on the sample
job (one stage, one interview) the loader raises while rebuilding the
template interview, because the cache entry carries no id and the Interview
dataclass requires one, so the reloaded cache does not reproduce the job. -/
theorem cache_round_trip_loses_jobs_with_stages :
    sampleJob.stages ≠ [] ∧
      load_cache_job (serialize_job sampleJob) = Except.error () :=
  ⟨by decide, rfl⟩

theorem foldl_batch_step
    (hydrate : Job → JobStage → RawApplication → Except String Application) (job : Job) :
    ∀ (l : List RawApplication) (acc : List Application × List String),
      l.foldl (batch_step hydrate job) acc =
        (acc.1 ++ l.filterMap (batch_hydration_result hydrate job),
         acc.2 ++ l.filterMap (batch_hydration_warning hydrate job)) := by
  intro l
  induction l with
  | nil => intro acc; simp
  | cons d tl ih =>
    intro acc
    simp only [List.foldl_cons, ih, List.filterMap_cons]
    have hstep : ∀ r w,
        batch_hydration_result hydrate job d = r →
        batch_hydration_warning hydrate job d = w →
        ((batch_step hydrate job acc d).1 ++ tl.filterMap (batch_hydration_result hydrate job),
         (batch_step hydrate job acc d).2 ++ tl.filterMap (batch_hydration_warning hydrate job)) =
        (acc.1 ++ (r.toList ++ tl.filterMap (batch_hydration_result hydrate job)),
         acc.2 ++ (w.toList ++ tl.filterMap (batch_hydration_warning hydrate job))) := by
      intro r w hr hw
      unfold batch_step
      unfold batch_hydration_result at hr
      unfold batch_hydration_warning at hw
      cases hp : d.prospect with
      | true => simp only [hp] at hr hw ⊢; subst hr; subst hw; simp
      | false =>
        simp only [hp] at hr hw ⊢
        cases hfind : job.stages.find? (fun st => st.id = d.current_stage_id) with
        | none => simp only [hfind] at hr hw ⊢; subst hr; subst hw; simp
        | some st =>
          simp only [hfind] at hr hw ⊢
          cases hh : hydrate job st d with
          | ok app =>
            simp only [hh] at hr hw ⊢; subst hr; subst hw
            simp [List.append_assoc]
          | error e =>
            simp only [hh] at hr hw ⊢; subst hr; subst hw
            simp [List.append_assoc]
    have := hstep (batch_hydration_result hydrate job d)
      (batch_hydration_warning hydrate job d) rfl rfl
    rw [this]
    cases hres : batch_hydration_result hydrate job d <;>
      cases hwarn : batch_hydration_warning hydrate job d <;> simp

/-- C9: batch hydration catches a per-application failure, emits a warning,
skips that application and keeps going, so the batch returns exactly the
successfully hydrated applications and one warning per failure (the two
filterMap equations); while the single-application lookup propagates the
error: an unknown job id or a current-stage id missing from the job
template each produce a descriptive fatal error. -/
theorem hydration_error_policy
    (hydrate : Job → JobStage → RawApplication → Except String Application)
    (lookup : String → Option Job) (job : Job)
    (apps_data : List RawApplication) (d : RawApplication) :
    ((get_applications_for_job hydrate job apps_data).1 =
        apps_data.filterMap (batch_hydration_result hydrate job) ∧
      (get_applications_for_job hydrate job apps_data).2 =
        apps_data.filterMap (batch_hydration_warning hydrate job)) ∧
    (∀ jid, d.jobs.head? = some jid → lookup jid = none →
      get_application lookup hydrate d =
        Except.error ("Job " ++ jid ++ " not found in job manager for application " ++ d.id)) ∧
    (∀ jid j2, d.jobs.head? = some jid → lookup jid = some j2 →
      j2.stages.find? (fun st => st.id = d.current_stage_id) = none →
      get_application lookup hydrate d =
        Except.error ("Current stage " ++ d.current_stage_id ++ " not found in job " ++ jid)) := by
  refine ⟨?_, ?_, ?_⟩
  · have h := foldl_batch_step hydrate job apps_data ([], [])
    unfold get_applications_for_job
    rw [h]
    simp
  · intro jid hhead hlook
    simp only [get_application, hhead, hlook]
  · intro jid j2 hhead hlook hfind
    simp only [get_application, hhead, hlook, hfind]

/-- C9 witness: over the records [bad, good] where hydration fails on bad,
the batch returns the one hydrated application and one warning; and the
single lookup of a record naming the unknown job JX fails with the
descriptive error. -/
theorem hydration_error_policy_witness :
    (get_applications_for_job hydrateStub sampleJob [rawBadApp, rawGoodApp]).1 =
        [⟨"good", sampleJob, sampleStage, none, none, "cg", none, none, none, none, []⟩] ∧
      (get_applications_for_job hydrateStub sampleJob [rawBadApp, rawGoodApp]).2 =
        ["Warning: Failed to hydrate application bad: boom"] ∧
      get_application lookupStub hydrateStub rawOtherJobApp =
        Except.error "Job JX not found in job manager for application A9" := by
  have h := hydration_error_policy hydrateStub lookupStub sampleJob
    [rawBadApp, rawGoodApp] rawOtherJobApp
  refine ⟨?_, ?_, ?_⟩
  · rw [h.1.1]; rfl
  · rw [h.1.2]; rfl
  · exact h.2.1 "JX" rfl rfl

theorem pyMinGo_ok_of_all_some :
    ∀ (l : List ScheduledInterview) (best : ScheduledInterview),
      best.created_at.isSome = true → (∀ i ∈ l, i.created_at.isSome = true) →
      ∃ e, pyMinGo best l = Except.ok e := by
  intro l
  induction l with
  | nil => exact fun best _ _ => ⟨best, rfl⟩
  | cons y ys ih =>
    intro best hb hl
    obtain ⟨a, ha⟩ := Option.isSome_iff_exists.1 hb
    obtain ⟨b, hyb⟩ := Option.isSome_iff_exists.1 (hl y (List.mem_cons_self y ys))
    have hrest : ∀ i ∈ ys, i.created_at.isSome = true :=
      fun i hi => hl i (List.mem_cons_of_mem _ hi)
    simp only [pyMinGo, hyb, ha, pyLtOpt]
    cases hd : decide (b < a) with
    | true => exact ih y (by simp [hyb]) hrest
    | false => exact ih best hb hrest

theorem if_isSome_self {α : Type} (o : Option α) :
    (if o.isSome then o else none) = o := by
  cases o <;> simp

theorem getValues_of_valid_nil (a : Application)
    (h : a.interviews.filter (fun i => i.created_at.isSome) = []) :
    InterviewTimes_get_values a =
      Except.ok (a.availability_requested_at, a.availability_received_at, none, none) := by
  by_cases hne : a.interviews = []
  · simp [InterviewTimes_get_values, hne]
  · simp [InterviewTimes_get_values, hne, h]

theorem getValues_of_valid_cons (a : Application) (f : ScheduledInterview)
    (fs : List ScheduledInterview)
    (h : a.interviews.filter (fun i => i.created_at.isSome) = f :: fs) :
    ∃ e, pyMinGo f fs = Except.ok e ∧
      InterviewTimes_get_values a =
        Except.ok (a.availability_requested_at, a.availability_received_at,
          e.created_at, some e.date) := by
  have hfmem : ∀ i ∈ f :: fs, i.created_at.isSome = true := by
    rw [← h]
    intro i hi
    exact (List.mem_filter.1 hi).2
  obtain ⟨e, he⟩ := pyMinGo_ok_of_all_some fs f (hfmem f (List.mem_cons_self f fs))
    (fun i hi => hfmem i (List.mem_cons_of_mem _ hi))
  have hne : a.interviews ≠ [] := by
    intro hx
    rw [hx] at h
    simp at h
  refine ⟨e, he, ?_⟩
  simp [InterviewTimes_get_values, hne, h, pyMinByCreatedAt, he, if_isSome_self]

/-- C10: the interview-timing field group never raises: its earliest
selection filters out interviews with a null created_at first, so when all
interviews lack created_at both timing columns are null even with a
non-empty interview list, and dropping the null entries from the interview
list never changes any of the four values. -/
theorem interview_times_null_handling (a : Application) :
    (∃ v, InterviewTimes_get_values a = Except.ok v) ∧
    ((∀ i ∈ a.interviews, i.created_at = none) →
      InterviewTimes_get_values a =
        Except.ok (a.availability_requested_at, a.availability_received_at, none, none)) ∧
    InterviewTimes_get_values
        { a with interviews := a.interviews.filter (fun i => i.created_at.isSome) } =
      InterviewTimes_get_values a := by
  refine ⟨?_, ?_, ?_⟩
  · cases hF : a.interviews.filter (fun i => i.created_at.isSome) with
    | nil => exact ⟨_, getValues_of_valid_nil a hF⟩
    | cons f fs =>
      obtain ⟨e, _, hv⟩ := getValues_of_valid_cons a f fs hF
      exact ⟨_, hv⟩
  · intro hall
    apply getValues_of_valid_nil
    apply List.filter_eq_nil_iff.2
    intro i hi
    simp [hall i hi]
  · cases hF : a.interviews.filter (fun i => i.created_at.isSome) with
    | nil =>
      rw [getValues_of_valid_nil a hF]
      exact getValues_of_valid_nil _ rfl
    | cons f fs =>
      obtain ⟨e, he, hv⟩ := getValues_of_valid_cons a f fs hF
      rw [hv]
      have hself : (f :: fs).filter (fun i => i.created_at.isSome) = f :: fs := by
        apply List.filter_eq_self.2
        rw [← hF]
        intro i hi
        exact (List.mem_filter.1 hi).2
      obtain ⟨e2, he2, hv2⟩ := getValues_of_valid_cons
        { a with interviews := f :: fs } f fs hself
      rw [hv2]
      rw [he] at he2
      cases he2
      rfl

/-- C10 witness: on an application whose single interview has no created_at
and whose availability_requested_at is 5, the field group returns
(some 5, none, none, none) without raising. -/
theorem interview_times_null_handling_witness :
    InterviewTimes_get_values noneCreatedApp =
      Except.ok (noneCreatedApp.availability_requested_at,
        noneCreatedApp.availability_received_at, none, none) :=
  (interview_times_null_handling noneCreatedApp).2.1 (by decide)

end Recruiting
